import Mathlib

/-!
Verification of the RHBugzilla client layer (bugzilla/rhbugzilla.py).

The Python module is shallowly embedded: Python values flowing through
query / bug / update mappings become the inductive type `Val`, Python
dicts become association lists (`Dict`) with first-match lookup,
overwrite-in-place insertion and key deletion, and every fallible
operation returns either an `Except` or a `Dict × Option String` pair
(final state of the mutated mapping together with the raised error, if
any) so that in-place mutation performed before an exception stays
observable, exactly as it does on a Python dict.

Remote calls are not performed: each embedded operation returns the
payload it would send (or the list of payloads, in issue order), and
operations that first fetch a bug take the fetched record as an explicit
parameter.
-/

namespace RHBz

/-- Python values appearing in query / bug / update mappings. -/
inductive Val where
  | vnone : Val
  | vbool (b : Bool) : Val
  | vint (n : Int) : Val
  | vstr (s : String) : Val
  | vlist (l : List Val) : Val
  | vdict (d : List (String × Val)) : Val

/-- A Python dict with string keys, as an association list.  Keys of a real
Python dict are unique; the operations below are written so that a duplicated
key behaves like its first (visible) occurrence. -/
abbrev Dict := List (String × Val)

/-- Lookup, first matching key (`d[k]` / `d.get(k)`). -/
def dget : Dict → String → Option Val
  | [], _ => none
  | (k, v) :: rest, key => if k = key then some v else dget rest key

/-- `d.get(k, default)`. -/
def dgetD (d : Dict) (k : String) (v : Val) : Val := (dget d k).getD v

/-- `d[k] = v`: overwrite in place if the key exists, else append. -/
def dinsert : Dict → String → Val → Dict
  | [], key, v => [(key, v)]
  | (k, w) :: rest, key, v =>
      if k = key then (k, v) :: rest else (k, w) :: dinsert rest key v

/-- `del d[k]`. -/
def derase : Dict → String → Dict
  | [], _ => []
  | (k, v) :: rest, key =>
      if k = key then derase rest key else (k, v) :: derase rest key

/-- `k in d`. -/
def dcontains (d : Dict) (k : String) : Bool := (dget d k).isSome

/-- Python truthiness (`bool(v)`). -/
def pyTruthy : Val → Bool
  | .vnone => false
  | .vbool b => b
  | .vint n => n != 0
  | .vstr s => s != ""
  | .vlist l => !l.isEmpty
  | .vdict d => !d.isEmpty

/-- A single-quote character, written without an apostrophe literal. -/
def sq : String := String.singleton (Char.ofNat 39)

mutual

/-- Python `repr(v)` (string escaping inside reprs is not reproduced;
no claim depends on the repr of a string that needs escaping). -/
def pyRepr : Val → String
  | .vnone => "None"
  | .vbool true => "True"
  | .vbool false => "False"
  | .vint n => if n < 0 then "-" ++ Nat.repr n.natAbs else Nat.repr n.natAbs
  | .vstr s => sq ++ s ++ sq
  | .vlist l => "[" ++ pyReprList l ++ "]"
  | .vdict d => "\x7b" ++ pyReprDict d ++ "\x7d"

def pyReprList : List Val → String
  | [] => ""
  | [x] => pyRepr x
  | x :: y :: rest => pyRepr x ++ ", " ++ pyReprList (y :: rest)

def pyReprDict : List (String × Val) → String
  | [] => ""
  | [(k, v)] => sq ++ k ++ sq ++ ": " ++ pyRepr v
  | (k, v) :: y :: rest => sq ++ k ++ sq ++ ": " ++ pyRepr v ++ ", " ++ pyReprDict (y :: rest)

end

/-- Python `str(v)` (`"%s" % v`): identity on strings, `repr` otherwise. -/
def pyStr : Val → String
  | .vstr s => s
  | v => pyRepr v

/-- Iterating a Python value (`for x in v`): lists yield their elements,
strings their characters (as one-character strings), dicts their keys;
everything else raises TypeError. -/
def iterVals : Val → Except String (List Val)
  | .vlist l => .ok l
  | .vstr s => .ok (s.data.map (fun c => .vstr (String.singleton c)))
  | .vdict d => .ok (d.map (fun kv => Val.vstr kv.1))
  | _ => .error "TypeError: object is not iterable"

/-- Characterwise split matching Python `s.split(sep)` for a one-character
separator (the only separators the source uses are " ", "," and "-"). -/
def splitOnChar (c : Char) : List Char → List (List Char)
  | [] => [[]]
  | x :: xs =>
      let r := splitOnChar c xs
      if x = c then [] :: r
      else
        match r with
        | [] => [[x]]
        | y :: ys => (x :: y) :: ys

def pySplitChar (c : Char) (s : String) : List String :=
  (splitOnChar c s.data).map String.mk

/-- Python `sep.join(parts)`. -/
def pyJoin (sep : String) : List String → String
  | [] => ""
  | [x] => x
  | x :: y :: rest => x ++ sep ++ pyJoin sep (y :: rest)

/-- Python `s.strip()`. -/
def pyStrip (s : String) : String :=
  String.mk (((s.data.dropWhile Char.isWhitespace).reverse.dropWhile Char.isWhitespace).reverse)

/-!
## Bug mutation layer (rhbugzilla.py lines 192-341)

Each operation returns the update payload(s) it would hand to the remote
`Bug.update` call, in issue order; raised exceptions become `.error`.
-/

/-- Embeds `_update_bugs` (lines 192-206): builds the wire payload
`{ids: ..., field: value, ...}` sent to Bug.update, remapping each key of
the fixed custom-field list by prefixing "cf_". -/
def update_bugs (ids : List Val) (updates : Dict) : Dict :=
  let custom_fields := ["fixed_in"]
  updates.foldl
    (fun tmp kv =>
      let key := if custom_fields.contains kv.1 then "cf_" ++ kv.1 else kv.1
      dinsert tmp key kv.2)
    [("ids", Val.vlist ids)]

/-- Embeds `_update_add_comment_fields` (lines 222-229). -/
def update_add_comment_fields (updatedict : Dict) (comment priv : Val) : Dict :=
  if !pyTruthy comment then updatedict
  else
    let commentdict : Dict := [("body", comment)]
    let commentdict := if pyTruthy priv then commentdict ++ [("is_private", priv)] else commentdict
    dinsert updatedict "comment" (Val.vdict commentdict)

/-- Embeds `_closebug` (lines 239-252): the update dict built before the
`_update_bug` call (private_in_it and nomail are ignored by the source). -/
def closebug (resolution dupeid fixedin comment isprivate : Val) : Dict :=
  let update : Dict := [("bug_status", Val.vstr "CLOSED"), ("resolution", resolution)]
  let update :=
    if pyTruthy dupeid then
      dinsert (dinsert update "resolution" (Val.vstr "DUPLICATE")) "dupe_of" dupeid
    else update
  let update := if pyTruthy fixedin then dinsert update "fixed_in" fixedin else update
  update_add_comment_fields update comment isprivate

/-- The wire payload `_closebug` produces: its update dict pushed through
`_update_bug` = `_update_bugs` on the single id (lines 208-213). -/
def closebug_wire (objid resolution dupeid fixedin comment isprivate : Val) : Dict :=
  update_bugs [objid] (closebug resolution dupeid fixedin comment isprivate)

/-- Embeds `_updatedeps` (lines 263-279): the update dict passed to
`_update_bug`, or the ValueError raised for a bad action. -/
def updatedeps (blocked dependson : Val) (action : String) : Except String Dict :=
  if ¬ (action = "add" ∨ action = "delete" ∨ action = "set") then
    .error ("action must be " ++ sq ++ "add" ++ sq ++ ", " ++ sq ++ "set" ++ sq ++
            ", or " ++ sq ++ "delete" ++ sq)
  else
    let action := if action = "delete" then "remove" else action
    .ok [("blocks", Val.vdict [(action, blocked)]),
         ("depends_on", Val.vdict [(action, dependson)])]

/-- The add/delete branch of `_updatecc` (lines 291-298): the update dict
`{cc: {action: cclist}}`, with "delete" remapped to "remove".  The source
reaches this code both directly and through the recursive calls made by the
"overwrite" branch (with fixed actions "delete" and "add"). -/
def updatecc_basic (cclist : Val) (action : String) : Dict :=
  let action := if action = "delete" then "remove" else action
  [("cc", Val.vdict [(action, cclist)])]

/-- Embeds `_updatecc` (lines 281-312).  `r` is the record `_getbug(objid)`
would return (the remote fetch made by the "overwrite" branch).  The result
is the list of update dicts passed to `_update_bug`, in issue order.  Note
the comment dict built at lines 288-289 is dropped: the add/delete branch
rebinds `update` to a fresh dict at line 296, and the overwrite branch
recurses with an empty comment. -/
def updatecc (r : Dict) (objid cclist : Val) (action : String) (comment : Val) :
    Except String (List Dict) :=
  let _discarded : Dict := update_add_comment_fields [] comment (Val.vbool false)
  if action = "add" ∨ action = "delete" then
    .ok [updatecc_basic cclist action]
  else if action = "overwrite" then
    match dget r "cc" with
    | none => .error ("Can" ++ sq ++ "t find cc list in bug " ++ pyStr objid)
    | some existing => .ok [updatecc_basic existing "delete", updatecc_basic cclist "add"]
  else
    .error ("action must be " ++ sq ++ "add" ++ sq ++ ", " ++ sq ++ "delete" ++ sq ++
            ", or " ++ sq ++ "overwrite" ++ sq)

/-- The fixed required-field order of `_addcomponent` (line 135-136). -/
def addRequiredFields : List String := ["product", "component", "initialowner", "description"]

/-- The first field of `req` that is absent from `data` or falsy there —
the field whose check in the `_addcomponent` loop (lines 137-139) raises. -/
def firstMissing (req : List String) (data : Dict) : Option String :=
  req.find? (fun f =>
    match dget data f with
    | none => true
    | some v => !pyTruthy v)

/-- Embeds `_addcomponent` (lines 134-143).  `lookup` stands for the remote
`_product_id_to_name` resolution; the `.ok` payload is the data handed to
the remote `bugzilla.addComponent` call, so an `.error` result means no
remote call (neither lookup nor addComponent) was issued. -/
def addcomponent (lookup : Int → Val) (data : Dict) : Except String Dict :=
  match firstMissing addRequiredFields data with
  | some f => .error ("mandatory fields missing: " ++ f)
  | none =>
      let data :=
        match dget data "product" with
        | some (.vint n) => dinsert data "product" (lookup n)
        | _ => data
      .ok data

/-!
## Query builder (rhbugzilla.py lines 421-538)

`build_query` consumes keyword arguments (`kwargs`) while filling a fresh
`query` dict.  The two inner helpers `add_email` and `add_boolean` are
embedded as explicit state transformers on `(kwargs, query, counter)`.
-/

/-- Embeds the inner `add_email` of `build_query` (lines 424-437): returns
the updated `(kwargs, query, count)`. -/
def add_email (key : String) (count : Nat) (kwargs query : Dict) : Dict × Dict × Nat :=
  match dget kwargs key with
  | none => (kwargs, query, count)
  | some value =>
      let kwargs := derase kwargs key
      match value with
      | .vnone => (kwargs, query, count)
      | _ =>
          let query := dinsert query "query_format" (Val.vstr "advanced")
          let query := dinsert query ("email" ++ Nat.repr count) value
          let query := dinsert query ("email" ++ key ++ Nat.repr count) (Val.vbool true)
          let query := dinsert query ("emailtype" ++ Nat.repr count)
                         (dgetD kwargs "emailtype" (Val.vstr "substring"))
          (kwargs, query, count + 1)

/-- Embeds `bool_smart_split` (lines 439-461): split on single spaces, but
treat "|", "&", "!" as standalone tokens only when a whole space-delimited
word strips down to one of them; other words are glued back together with
single spaces. -/
def bool_smart_split (boolval : String) : List String :=
  let boolchars := ["|", "&", "!"]
  let step := fun (st : String × List String) (word : String) =>
    let add := st.1
    let retlist := st.2
    if boolchars.contains (pyStrip word) then
      let word := pyStrip word
      if add != "" then ("", retlist ++ [add, word])
      else ("", retlist ++ [word])
    else
      let add := if add != "" then add ++ " " ++ word else word
      (add, retlist)
  let fin := (pySplitChar ' ' boolval).foldl step ("", [])
  if fin.1 != "" then fin.2 ++ [fin.1] else fin.2

/-- The key `"%s%i-%i-%i" % (prefix, bool_id, and_count, or_count)` built by
the `make_bool_str` closure (lines 477-479). -/
def make_bool_str (pfx : String) (bool_id and_count or_count : Nat) : String :=
  pfx ++ Nat.repr bool_id ++ "-" ++ Nat.repr and_count ++ "-" ++ Nat.repr or_count

/-- The three unconditional writes at the end of each token iteration
(lines 506-509): they run for every token, operators included; `value` is
written only when `fval` is truthy. -/
def bool_emit (query : Dict) (bool_id and_count or_count : Nat) (field fval typ : Val) : Dict :=
  let query := dinsert query (make_bool_str "field" bool_id and_count or_count) field
  let query :=
    if pyTruthy fval then dinsert query (make_bool_str "value" bool_id and_count or_count) fval
    else query
  dinsert query (make_bool_str "type" bool_id and_count or_count) typ

/-- One iteration of the token loop of `add_boolean` (lines 481-509), on the
state `(query, and_count, or_count)`.  `value` is the whole kwarg value
(used only in the malformed-query error message). -/
def add_boolean_token (kwargs : Dict) (key : Option String) (value : Val) (bool_id : Nat)
    (st : Dict × Nat × Nat) (par : String) : Except String (Dict × Nat × Nat) :=
  let query := st.1
  let and_count := st.2.1
  let or_count := st.2.2
  let typ := dgetD kwargs "booleantype" (Val.vstr "substring")
  if par = "&" then
    .ok (bool_emit query bool_id (and_count + 1) or_count Val.vnone (Val.vstr par) typ,
         and_count + 1, or_count)
  else if par = "|" then
    .ok (bool_emit query bool_id and_count (or_count + 1) Val.vnone (Val.vstr par) typ,
         and_count, or_count + 1)
  else if par = "!" then
    let query := dinsert query ("negate" ++ Nat.repr bool_id) (Val.vint 1)
    .ok (bool_emit query bool_id and_count or_count Val.vnone (Val.vstr par) typ,
         and_count, or_count)
  else
    match key with
    | none =>
        -- args = par.split("-", 2); a missing "-" is a malformed query
        match pySplitChar '-' par with
        | a :: b :: rest =>
            let fval := match rest with | [] => Val.vnone | _ => Val.vstr (pyJoin "-" rest)
            .ok (bool_emit query bool_id and_count or_count (Val.vstr a) fval (Val.vstr b),
                 and_count, or_count)
        | _ => .error ("Malformed boolean query: " ++ pyStr value)
    | some k =>
        .ok (bool_emit query bool_id and_count or_count (Val.vstr k) (Val.vstr par) typ,
             and_count, or_count)

/-- The body of `for boolval in value` (lines 474-509) for a single
`boolval`: token loop over `bool_smart_split boolval`, starting from
`and_count = or_count = 0`; also returns the final counters. -/
def add_boolean_chart (kwargs : Dict) (key : Option String) (value : Val) (bool_id : Nat)
    (query : Dict) (boolval : String) : Except String (Dict × Nat × Nat) :=
  (bool_smart_split boolval).foldlM (add_boolean_token kwargs key value bool_id) (query, 0, 0)

/-- Embeds the inner `add_boolean` of `build_query` (lines 463-512): returns
the updated `(kwargs, query, bool_id)` or the raised error. -/
def add_boolean (kwkey : String) (key : Option String) (bool_id : Nat)
    (kwargs query : Dict) : Except String (Dict × Dict × Nat) :=
  match dget kwargs kwkey with
  | none => .ok (kwargs, query, bool_id)
  | some value =>
      let kwargs := derase kwargs kwkey
      match value with
      | .vnone => .ok (kwargs, query, bool_id)
      | _ =>
          let query := dinsert query "query_format" (Val.vstr "advanced")
          match iterVals value with
          | .error e => .error e
          | .ok items => do
              let st ← items.foldlM
                (fun (st : Dict × Nat) item => do
                  match item with
                  | .vstr boolval =>
                      let r ← add_boolean_chart kwargs key value st.2 st.1 boolval
                      pure (r.1, st.2 + 1)
                  | _ => .error "AttributeError: object has no attribute split")
                (query, bool_id)
              .ok (kwargs, st.1, st.2)

/-!
## Field translator (rhbugzilla.py lines 348-419)

`pre_translation` and `post_translation` mutate their mapping in place, so
each is embedded as `Dict → Dict × Option String`: the final state of the
mapping (mutations performed before an exception included) together with
the raised error, if any.
-/

/-- Sequencing of in-place mutation steps: a raised error stops the chain
but keeps the state reached so far. -/
def stChain (s : Dict × Option String) (f : Dict → Dict × Option String) :
    Dict × Option String :=
  match s with
  | (d, none) => f d
  | (d, some e) => (d, some e)

/-- The `bug_id` section of `pre_translation` (lines 350-355): a non-list
value is `.split(",")` (AttributeError unless it is a string), the result
is stored under `id` and the `bug_id` key deleted. -/
def pt_bug_id (q : Dict) : Dict × Option String :=
  match dget q "bug_id" with
  | none => (q, none)
  | some (.vlist l) => (derase (dinsert q "id" (Val.vlist l)) "bug_id", none)
  | some (.vstr s) =>
      (derase (dinsert q "id" (Val.vlist ((pySplitChar ',' s).map Val.vstr))) "bug_id", none)
  | some _ => (q, some "AttributeError: object has no attribute split")

/-- The `component` section of `pre_translation` (lines 357-359). -/
def pt_component (q : Dict) : Dict × Option String :=
  match dget q "component" with
  | none => (q, none)
  | some (.vlist _) => (q, none)
  | some (.vstr s) =>
      (dinsert q "component" (Val.vlist ((pySplitChar ',' s).map Val.vstr)), none)
  | some _ => (q, some "AttributeError: object has no attribute split")

/-- Does `needle` occur inside `hay` (Python `needle in hay` on strings)? -/
def strOccursIn (needle hay : String) : Bool :=
  subScan needle.data hay.data
where
  subScan (n : List Char) : List Char → Bool
    | [] => n.isEmpty
    | c :: t => n.isPrefixOf (c :: t) || subScan n t

/-- Is `x` a string equal to `o`?  Python equality between a string and a
non-string value is always false, so `oldname in include_fields`,
`list.remove(oldname)` and `newname not in include_fields` all compare
through this predicate. -/
def isStrEq (o : String) (x : Val) : Bool :=
  match x with
  | .vstr s => s = o
  | _ => false

/-- Python `list.remove`-style removal of the first match. -/
def listRemoveFirst (p : Val → Bool) : List Val → List Val
  | [] => []
  | x :: xs => if p x then xs else x :: listRemoveFirst p xs

/-- The alias loop of `pre_translation` (lines 371-375) over an
`include_fields` list: for each `(newname, oldname)` pair in order, if
`oldname` is present it is removed and `newname` appended unless already
present.  `fa` stands for `self.field_aliases`, whose contents live outside
this module; it is kept as a parameter. -/
def aliasPass (fa : List (String × String)) (l : List Val) : List Val :=
  fa.foldl
    (fun acc pr =>
      if acc.any (isStrEq pr.2) then
        let acc := listRemoveFirst (isStrEq pr.2) acc
        if acc.any (isStrEq pr.1) then acc else acc ++ [Val.vstr pr.1]
      else acc)
    l

/-- The seeding of `include_fields` (lines 364-368): when absent it is
created empty, then taken over from `column_list` when that is present
(which is then deleted). -/
def pt_seed (q : Dict) : Dict :=
  if dcontains q "include_fields" = false then
    match dget (dinsert q "include_fields" (Val.vlist [])) "column_list" with
    | some cl => derase (dinsert (dinsert q "include_fields" (Val.vlist [])) "include_fields" cl)
                   "column_list"
    | none => dinsert q "include_fields" (Val.vlist [])
  else q

/-- The `include_fields` / `column_list` section of `pre_translation`
(lines 361-375): early return when neither key is present; otherwise a
missing `include_fields` is seeded (from `column_list` when present, which
is then deleted), and the alias loop runs over the `include_fields` value.
A non-list `include_fields` raises once an alias pair actually hits it:
membership tests work on strings (substring) and dicts (keys) but
`.remove` then raises, and iteration over other values raises at the first
pair. -/
def pt_fields (fa : List (String × String)) (q : Dict) : Dict × Option String :=
  if dcontains q "include_fields" = false ∧ dcontains q "column_list" = false then
    (q, none)
  else
    match dget (pt_seed q) "include_fields" with
    | some (.vlist l) => (dinsert (pt_seed q) "include_fields" (Val.vlist (aliasPass fa l)), none)
    | some (.vstr s) =>
        if fa.any (fun pr => strOccursIn pr.2 s) then
          (pt_seed q, some "AttributeError: object has no attribute remove")
        else (pt_seed q, none)
    | some (.vdict d) =>
        if fa.any (fun pr => d.any (fun kv => kv.1 = pr.2)) then
          (pt_seed q, some "AttributeError: object has no attribute remove")
        else (pt_seed q, none)
    | some _ =>
        if fa.isEmpty then (pt_seed q, none)
        else (pt_seed q, some "TypeError: argument is not iterable")
    | none => (pt_seed q, none)

/-- Embeds `pre_translation` (lines 348-375).  `fa` is the
`self.field_aliases` table (declared outside this module). -/
def pre_translation (fa : List (String × String)) (q : Dict) : Dict × Option String :=
  stChain (stChain (pt_bug_id q) pt_component) (pt_fields fa)

/-- The `"%s%s" % (tmp["name"], tmp["status"])` strings of the flags loop
(lines 380-382); an element that is not a dict with both keys raises. -/
def flagPairs : List Val → Except String (List String)
  | [] => .ok []
  | .vdict d :: rest =>
      match dget d "name" with
      | none => .error "KeyError: name"
      | some n =>
          match dget d "status" with
          | none => .error "KeyError: status"
          | some st => do
              let r ← flagPairs rest
              .ok ((pyStr n ++ pyStr st) :: r)
  | _ :: _ => .error "TypeError: indices must be integers"

/-- The flags section of `post_translation` (lines 380-384). -/
def post_flags (bug : Dict) : Dict × Option String :=
  match dget bug "flags" with
  | none => (bug, none)
  | some v =>
      match iterVals v with
      | .error e => (bug, some e)
      | .ok items =>
          match flagPairs items with
          | .error e => (bug, some e)
          | .ok strs => (dinsert bug "flags" (Val.vstr (pyJoin "," strs)), none)

/-- The blocks section of `post_translation` (lines 385-391): a non-empty
blocks value is flattened to `",".join(str(b) for b in blocks)` stored
under both `blockedby` and `blocked` (in that order); an empty one yields
empty strings; a value without `len` raises. -/
def post_blocks (bug : Dict) : Dict × Option String :=
  match dget bug "blocks" with
  | none => (bug, none)
  | some v =>
      match v with
      | .vlist l =>
          if l.length > 0 then
            let s := pyJoin "," (l.map pyStr)
            (dinsert (dinsert bug "blockedby" (Val.vstr s)) "blocked" (Val.vstr s), none)
          else (dinsert (dinsert bug "blockedby" (Val.vstr "")) "blocked" (Val.vstr ""), none)
      | .vstr str =>
          if str.length > 0 then
            let s := pyJoin "," (str.data.map String.singleton)
            (dinsert (dinsert bug "blockedby" (Val.vstr s)) "blocked" (Val.vstr s), none)
          else (dinsert (dinsert bug "blockedby" (Val.vstr "")) "blocked" (Val.vstr ""), none)
      | .vdict d =>
          if d.length > 0 then
            let s := pyJoin "," (d.map Prod.fst)
            (dinsert (dinsert bug "blockedby" (Val.vstr s)) "blocked" (Val.vstr s), none)
          else (dinsert (dinsert bug "blockedby" (Val.vstr "")) "blocked" (Val.vstr ""), none)
      | _ => (bug, some "TypeError: object has no len")

/-- `",".join(v)` where every element must already be a string (Python
`join` raises otherwise); shared by the keywords and alias sections. -/
def joinStrElems : List Val → Except String (List String)
  | [] => .ok []
  | .vstr s :: rest => do
      let r ← joinStrElems rest
      .ok (s :: r)
  | _ :: _ => .error "TypeError: expected str instance"

/-- The keywords and alias sections of `post_translation` (lines 392-396
and 402-406) share this shape, differing only in the key. -/
def post_join_key (keyname : String) (bug : Dict) : Dict × Option String :=
  match dget bug keyname with
  | none => (bug, none)
  | some v =>
      match v with
      | .vlist l =>
          if l.length > 0 then
            match joinStrElems l with
            | .error e => (bug, some e)
            | .ok strs => (dinsert bug keyname (Val.vstr (pyJoin "," strs)), none)
          else (dinsert bug keyname (Val.vstr ""), none)
      | .vstr s =>
          if s.length > 0 then
            (dinsert bug keyname (Val.vstr (pyJoin "," (s.data.map String.singleton))), none)
          else (dinsert bug keyname (Val.vstr ""), none)
      | .vdict d =>
          if d.length > 0 then
            (dinsert bug keyname (Val.vstr (pyJoin "," (d.map Prod.fst))), none)
          else (dinsert bug keyname (Val.vstr ""), none)
      | _ => (bug, some "TypeError: object has no len")

/-- Python `v[0]`. -/
def pyIndex0 : Val → Except String Val
  | .vlist (x :: _) => .ok x
  | .vlist [] => .error "IndexError: list index out of range"
  | .vstr s =>
      match s.data with
      | c :: _ => .ok (Val.vstr (String.singleton c))
      | [] => .error "IndexError: string index out of range"
  | .vdict _ => .error "KeyError: 0"
  | _ => .error "TypeError: object is not subscriptable"

/-- The component section of `post_translation` (lines 397-401): the full
value is copied under `components`, then `component` is overwritten with
its element 0 — with no emptiness guard, so an empty list raises after
`components` has already been set. -/
def post_component (bug : Dict) : Dict × Option String :=
  match dget bug "component" with
  | none => (bug, none)
  | some v =>
      let bug := dinsert bug "components" v
      match pyIndex0 v with
      | .ok first => (dinsert bug "component" first, none)
      | .error e => (bug, some e)

/-- The groups section of `post_translation` (lines 407-419). -/
def post_groups (bug : Dict) : Dict × Option String :=
  match dget bug "groups" with
  | none => (bug, none)
  | some v =>
      match iterVals v with
      | .error e => (bug, some e)
      | .ok gs =>
          (dinsert bug "groups"
            (Val.vlist (gs.map (fun g =>
              Val.vdict [("name", g), ("description", g), ("ison", Val.vint 1)]))), none)

/-- Embeds `post_translation` (lines 377-419); the `query` argument of the
source method is unused by its body and therefore omitted. -/
def post_translation (bug : Dict) : Dict × Option String :=
  stChain (stChain (stChain (stChain (stChain
    (post_flags bug) post_blocks) (post_join_key "keywords")) post_component)
    (post_join_key "alias")) post_groups

/-!
## Dictionary lemmas
-/

theorem dget_dinsert_self (d : Dict) (k : String) (v : Val) :
    dget (dinsert d k v) k = some v := by
  induction d with
  | nil => simp [dinsert, dget]
  | cons p t ih =>
      obtain ⟨a, b⟩ := p
      by_cases hk : a = k
      · subst hk; simp [dinsert, dget]
      · simp [dinsert, dget, hk, ih]

theorem dget_dinsert_ne (d : Dict) (k q : String) (v : Val) (h : q ≠ k) :
    dget (dinsert d k v) q = dget d q := by
  have h2 : k ≠ q := Ne.symm h
  induction d with
  | nil => simp [dinsert, dget, h2]
  | cons p t ih =>
      obtain ⟨a, b⟩ := p
      by_cases hk : a = k
      · subst hk
        simp [dinsert, dget, h2]
      · simp [dinsert, dget, hk, ih]

theorem dget_derase_self (d : Dict) (k : String) :
    dget (derase d k) k = none := by
  induction d with
  | nil => simp [derase, dget]
  | cons p t ih =>
      obtain ⟨a, b⟩ := p
      by_cases hk : a = k
      · simp [derase, hk, ih]
      · simp [derase, dget, hk, ih]

theorem dget_derase_ne (d : Dict) (k q : String) (h : q ≠ k) :
    dget (derase d k) q = dget d q := by
  have h2 : k ≠ q := Ne.symm h
  induction d with
  | nil => simp [derase]
  | cons p t ih =>
      obtain ⟨a, b⟩ := p
      by_cases hk : a = k
      · subst hk
        simp [derase, dget, h2, ih]
      · simp [derase, dget, hk, ih]

/-!
## Claims about the bug mutation layer
-/

/-- C2: `_updatecc` with action "overwrite" on a bug whose fetched record
has a `cc` field issues exactly two updates, in order: first the removal of
the existing CC list, then the addition of the new one; when the fetched
record has no `cc` field it raises before issuing any update. -/
theorem updatecc_overwrite_two_updates (r : Dict) (objid cclist comment : Val) :
    (∀ existing, dget r "cc" = some existing →
      updatecc r objid cclist "overwrite" comment =
        .ok [[("cc", Val.vdict [("remove", existing)])],
             [("cc", Val.vdict [("add", cclist)])]]) ∧
    (dget r "cc" = none →
      updatecc r objid cclist "overwrite" comment =
        .error ("Can" ++ sq ++ "t find cc list in bug " ++ pyStr objid)) := by
  constructor
  · intro existing h
    simp [updatecc, h, updatecc_basic]
  · intro h
    simp [updatecc, h]

/-- C2 witness: overwriting the CC list `["y@example.com"]` with
`["x@example.com"]` issues exactly the removal then the addition; on a
record with no `cc` field the call fails. -/
theorem updatecc_overwrite_two_updates_witness :
    updatecc [("cc", Val.vlist [Val.vstr "y@example.com"])] (Val.vint 5)
        (Val.vlist [Val.vstr "x@example.com"]) "overwrite" (Val.vstr "") =
      .ok [[("cc", Val.vdict [("remove", Val.vlist [Val.vstr "y@example.com"])])],
           [("cc", Val.vdict [("add", Val.vlist [Val.vstr "x@example.com"])])]] ∧
    updatecc [("status", Val.vstr "NEW")] (Val.vint 5)
        (Val.vlist [Val.vstr "x@example.com"]) "overwrite" (Val.vstr "") =
      .error ("Can" ++ sq ++ "t find cc list in bug 5") :=
  ⟨(updatecc_overwrite_two_updates [("cc", Val.vlist [Val.vstr "y@example.com"])]
      (Val.vint 5) (Val.vlist [Val.vstr "x@example.com"]) (Val.vstr "")).1
      (Val.vlist [Val.vstr "y@example.com"]) rfl,
   (updatecc_overwrite_two_updates [("status", Val.vstr "NEW")]
      (Val.vint 5) (Val.vlist [Val.vstr "x@example.com"]) (Val.vstr "")).2 rfl⟩

/-- C9: `_updatecc` with action "add" or "delete" and a non-empty comment
sends an update containing only the `cc` key — the comment dict built from
the argument is discarded before the update is issued. -/
theorem updatecc_comment_dropped (r : Dict) (objid cclist comment : Val)
    (_h : pyTruthy comment = true) :
    updatecc r objid cclist "add" comment = .ok [[("cc", Val.vdict [("add", cclist)])]] ∧
    updatecc r objid cclist "delete" comment =
      .ok [[("cc", Val.vdict [("remove", cclist)])]] ∧
    dcontains [("cc", Val.vdict [("add", cclist)])] "comment" = false ∧
    dcontains [("cc", Val.vdict [("remove", cclist)])] "comment" = false :=
  ⟨rfl, rfl, rfl, rfl⟩

/-- C9 witness: adding `["x@example.com"]` with comment "please" transmits
only the `cc` key. -/
theorem updatecc_comment_dropped_witness :
    pyTruthy (Val.vstr "please") = true ∧
    updatecc [] (Val.vint 5) (Val.vlist [Val.vstr "x@example.com"]) "add"
        (Val.vstr "please") =
      .ok [[("cc", Val.vdict [("add", Val.vlist [Val.vstr "x@example.com"])])]] :=
  ⟨rfl, (updatecc_comment_dropped [] (Val.vint 5) (Val.vlist [Val.vstr "x@example.com"])
      (Val.vstr "please") rfl).1⟩

/-- C3: `_addcomponent` raises a validation error naming the first required
field (in the fixed order product, component, initialowner, description)
that is absent or falsy, without any remote call — the model only produces
a remote payload in the `.ok` case; in particular an empty input fails
naming "product". -/
theorem addcomponent_missing_field (lookup : Int → Val) (data : Dict) :
    (∀ f, firstMissing addRequiredFields data = some f →
      addcomponent lookup data = .error ("mandatory fields missing: " ++ f)) ∧
    addRequiredFields = ["product", "component", "initialowner", "description"] ∧
    addcomponent lookup [] = .error "mandatory fields missing: product" := by
  refine ⟨?_, rfl, rfl⟩
  intro f h
  simp [addcomponent, h]

/-- C3 witness: with only a product given, the validation error names
"component" (the first missing field after product); with nothing given it
names "product". -/
theorem addcomponent_missing_field_witness :
    addcomponent (fun _ => Val.vnone) [("product", Val.vstr "Fedora")] =
      .error "mandatory fields missing: component" ∧
    addcomponent (fun _ => Val.vnone) [] = .error "mandatory fields missing: product" :=
  ⟨(addcomponent_missing_field (fun _ => Val.vnone) [("product", Val.vstr "Fedora")]).1
      "component" rfl,
   (addcomponent_missing_field (fun _ => Val.vnone) []).2.2⟩

/-- C4: `_updatedeps` raises a ValueError for any action outside
add/delete/set, remaps "delete" to "remove", and builds the nested update
`{blocks: {action: blocked}, depends_on: {action: dependson}}` for each
valid action ("add" and "set" pass through unchanged, "delete" is sent as
"remove"); in particular blocked `[1,2]`, dependson `[]`, action "delete"
emits `{blocks: {remove: [1,2]}, depends_on: {remove: []}}`. -/
theorem updatedeps_action_spec (blocked dependson : Val) (action : String) :
    (¬ (action = "add" ∨ action = "delete" ∨ action = "set") →
      updatedeps blocked dependson action =
        .error ("action must be " ++ sq ++ "add" ++ sq ++ ", " ++ sq ++ "set" ++ sq ++
                ", or " ++ sq ++ "delete" ++ sq)) ∧
    updatedeps blocked dependson "add" =
      .ok [("blocks", Val.vdict [("add", blocked)]),
           ("depends_on", Val.vdict [("add", dependson)])] ∧
    updatedeps blocked dependson "set" =
      .ok [("blocks", Val.vdict [("set", blocked)]),
           ("depends_on", Val.vdict [("set", dependson)])] ∧
    updatedeps blocked dependson "delete" =
      .ok [("blocks", Val.vdict [("remove", blocked)]),
           ("depends_on", Val.vdict [("remove", dependson)])] ∧
    updatedeps (Val.vlist [Val.vint 1, Val.vint 2]) (Val.vlist []) "delete" =
      .ok [("blocks", Val.vdict [("remove", Val.vlist [Val.vint 1, Val.vint 2])]),
           ("depends_on", Val.vdict [("remove", Val.vlist [])])] := by
  refine ⟨?_, rfl, rfl, rfl, rfl⟩
  intro h
  simp [updatedeps, h]

/-- C4 witness: the action "close" (outside add/delete/set) is rejected,
the "add" and "set" emissions pass the action through, and the delete
emission at `[1,2]` / `[]` is as the claim states. -/
theorem updatedeps_action_spec_witness :
    updatedeps (Val.vlist [Val.vint 1, Val.vint 2]) (Val.vlist []) "close" =
      .error ("action must be " ++ sq ++ "add" ++ sq ++ ", " ++ sq ++ "set" ++ sq ++
              ", or " ++ sq ++ "delete" ++ sq) ∧
    updatedeps (Val.vlist [Val.vint 1, Val.vint 2]) (Val.vlist []) "add" =
      .ok [("blocks", Val.vdict [("add", Val.vlist [Val.vint 1, Val.vint 2])]),
           ("depends_on", Val.vdict [("add", Val.vlist [])])] ∧
    updatedeps (Val.vlist [Val.vint 1, Val.vint 2]) (Val.vlist []) "set" =
      .ok [("blocks", Val.vdict [("set", Val.vlist [Val.vint 1, Val.vint 2])]),
           ("depends_on", Val.vdict [("set", Val.vlist [])])] ∧
    updatedeps (Val.vlist [Val.vint 1, Val.vint 2]) (Val.vlist []) "delete" =
      .ok [("blocks", Val.vdict [("remove", Val.vlist [Val.vint 1, Val.vint 2])]),
           ("depends_on", Val.vdict [("remove", Val.vlist [])])] :=
  ⟨(updatedeps_action_spec (Val.vlist [Val.vint 1, Val.vint 2]) (Val.vlist [])
      "close").1 (by decide),
   (updatedeps_action_spec (Val.vlist [Val.vint 1, Val.vint 2]) (Val.vlist [])
      "close").2.1,
   (updatedeps_action_spec (Val.vlist [Val.vint 1, Val.vint 2]) (Val.vlist [])
      "close").2.2.1,
   (updatedeps_action_spec (Val.vlist [Val.vint 1, Val.vint 2]) (Val.vlist [])
      "close").2.2.2.2⟩

/-- C6: the wire payload of `_closebug` always carries status CLOSED; a
truthy duplicate target forces resolution DUPLICATE (whatever the
resolution argument) and sets `dupe_of`; a truthy fixed-in value is sent
and reaches the wire under `cf_fixed_in` (the custom-field remapping of
`_update_bugs`), with no plain `fixed_in` key. -/
theorem closebug_update_fields (objid resolution dupeid fixedin comment isprivate : Val) :
    dget (closebug_wire objid resolution dupeid fixedin comment isprivate) "bug_status" =
      some (Val.vstr "CLOSED") ∧
    (pyTruthy dupeid = true →
      dget (closebug_wire objid resolution dupeid fixedin comment isprivate) "resolution" =
        some (Val.vstr "DUPLICATE") ∧
      dget (closebug_wire objid resolution dupeid fixedin comment isprivate) "dupe_of" =
        some dupeid) ∧
    (pyTruthy fixedin = true →
      dget (closebug_wire objid resolution dupeid fixedin comment isprivate) "cf_fixed_in" =
        some fixedin ∧
      dget (closebug_wire objid resolution dupeid fixedin comment isprivate) "fixed_in" =
        none) := by
  cases hd : pyTruthy dupeid <;> cases hf : pyTruthy fixedin <;>
    cases hc : pyTruthy comment <;> cases hp : pyTruthy isprivate <;>
    simp [closebug_wire, closebug, update_bugs, update_add_comment_fields,
          dinsert, dget, hd, hf, hc, hp, List.contains]

/-- C6 witness: closing bug 7 as NOTABUG with duplicate target 42 and
fixed-in "1.2-3" sends CLOSED, resolution DUPLICATE, dupe_of 42 and
cf_fixed_in (no fixed_in). -/
theorem closebug_update_fields_witness :
    dget (closebug_wire (Val.vint 7) (Val.vstr "NOTABUG") (Val.vint 42)
        (Val.vstr "1.2-3") (Val.vstr "note") Val.vnone) "bug_status" =
      some (Val.vstr "CLOSED") ∧
    dget (closebug_wire (Val.vint 7) (Val.vstr "NOTABUG") (Val.vint 42)
        (Val.vstr "1.2-3") (Val.vstr "note") Val.vnone) "resolution" =
      some (Val.vstr "DUPLICATE") ∧
    dget (closebug_wire (Val.vint 7) (Val.vstr "NOTABUG") (Val.vint 42)
        (Val.vstr "1.2-3") (Val.vstr "note") Val.vnone) "dupe_of" =
      some (Val.vint 42) ∧
    dget (closebug_wire (Val.vint 7) (Val.vstr "NOTABUG") (Val.vint 42)
        (Val.vstr "1.2-3") (Val.vstr "note") Val.vnone) "cf_fixed_in" =
      some (Val.vstr "1.2-3") ∧
    dget (closebug_wire (Val.vint 7) (Val.vstr "NOTABUG") (Val.vint 42)
        (Val.vstr "1.2-3") (Val.vstr "note") Val.vnone) "fixed_in" = none := by
  have h := closebug_update_fields (Val.vint 7) (Val.vstr "NOTABUG") (Val.vint 42)
    (Val.vstr "1.2-3") (Val.vstr "note") Val.vnone
  exact ⟨h.1, (h.2.1 rfl).1, (h.2.1 rfl).2, (h.2.2 rfl).1, (h.2.2 rfl).2⟩

/-!
## Frame lemmas for the translator steps
-/

theorem pt_component_frame (q : Dict) (k : String) (h : k ≠ "component") :
    dget (pt_component q).1 k = dget q k := by
  cases hv : dget q "component" with
  | none => simp [pt_component, hv]
  | some v => cases v <;> simp [pt_component, hv, dget_dinsert_ne _ _ _ _ h]

theorem pt_seed_frame (q : Dict) (k : String)
    (h1 : k ≠ "include_fields") (h2 : k ≠ "column_list") :
    dget (pt_seed q) k = dget q k := by
  unfold pt_seed
  by_cases hc : dcontains q "include_fields" = false
  · rw [if_pos hc]
    have hcl : dget (dinsert q "include_fields" (Val.vlist [])) "column_list" =
        dget q "column_list" := dget_dinsert_ne _ _ _ _ (by decide)
    cases hv : dget q "column_list" with
    | none =>
        rw [hcl, hv]
        exact dget_dinsert_ne _ _ _ _ h1
    | some cl =>
        rw [hcl, hv]
        rw [dget_derase_ne _ _ _ h2, dget_dinsert_ne _ _ _ _ h1, dget_dinsert_ne _ _ _ _ h1]
  · rw [if_neg hc]

theorem pt_fields_frame (fa : List (String × String)) (q : Dict) (k : String)
    (h1 : k ≠ "include_fields") (h2 : k ≠ "column_list") :
    dget (pt_fields fa q).1 k = dget q k := by
  unfold pt_fields
  by_cases hc : dcontains q "include_fields" = false ∧ dcontains q "column_list" = false
  · rw [if_pos hc]
  · rw [if_neg hc]
    have hs := pt_seed_frame q k h1 h2
    cases hv : dget (pt_seed q) "include_fields" with
    | none => simpa using hs
    | some v =>
        cases v with
        | vlist l =>
            simp only []
            rw [dget_dinsert_ne _ _ _ _ h1]
            exact hs
        | vstr s => simp only []; split <;> exact hs
        | vdict d => simp only []; split <;> exact hs
        | vnone => simp only []; split <;> exact hs
        | vbool b => simp only []; split <;> exact hs
        | vint n => simp only []; split <;> exact hs

/-!
## Claims about the field translator
-/

/-- C5: a query carrying the legacy `bug_id` key with a string value is
pre-translated so that the canonical `id` key holds the comma-split list
and `bug_id` is gone, whatever the alias table holds. -/
theorem pre_translation_bug_id (fa : List (String × String)) (q : Dict) (s : String)
    (h : dget q "bug_id" = some (Val.vstr s)) :
    dget (pre_translation fa q).1 "id" =
      some (Val.vlist ((pySplitChar ',' s).map Val.vstr)) ∧
    dcontains (pre_translation fa q).1 "bug_id" = false := by
  have hb : pt_bug_id q =
      (derase (dinsert q "id" (Val.vlist ((pySplitChar ',' s).map Val.vstr))) "bug_id",
       none) := by
    simp [pt_bug_id, h]
  set q1 := derase (dinsert q "id" (Val.vlist ((pySplitChar ',' s).map Val.vstr))) "bug_id"
    with hq1
  have hid1 : dget q1 "id" = some (Val.vlist ((pySplitChar ',' s).map Val.vstr)) := by
    rw [hq1, dget_derase_ne _ _ _ (by decide), dget_dinsert_self]
  have hbid1 : dget q1 "bug_id" = none := by rw [hq1]; exact dget_derase_self _ _
  unfold pre_translation
  rw [hb]
  have hred : stChain (q1, none) pt_component = pt_component q1 := rfl
  rw [hred]
  rcases hcc : pt_component q1 with ⟨q2, e2⟩
  have hid2 : dget q2 "id" = dget q1 "id" := by
    have := pt_component_frame q1 "id" (by decide)
    rwa [hcc] at this
  have hbid2 : dget q2 "bug_id" = dget q1 "bug_id" := by
    have := pt_component_frame q1 "bug_id" (by decide)
    rwa [hcc] at this
  cases e2 with
  | some e =>
      show dget q2 "id" = _ ∧ dcontains q2 "bug_id" = false
      constructor
      · rw [hid2]; exact hid1
      · simp [dcontains, hbid2, hbid1]
  | none =>
      show dget (pt_fields fa q2).1 "id" = _ ∧ dcontains (pt_fields fa q2).1 "bug_id" = false
      constructor
      · rw [pt_fields_frame fa q2 "id" (by decide) (by decide), hid2]
        exact hid1
      · have hb2 : dget (pt_fields fa q2).1 "bug_id" = none := by
          rw [pt_fields_frame fa q2 "bug_id" (by decide) (by decide), hbid2]
          exact hbid1
        simp [dcontains, hb2]

theorem stChain_ok (d : Dict) (f : Dict → Dict × Option String) :
    stChain (d, none) f = f d := rfl

theorem stChain_err (d : Dict) (e : String) (f : Dict → Dict × Option String) :
    stChain (d, some e) f = (d, some e) := rfl

/-- C8: `post_translation` is partial in the component field.  On a record
whose `component` is a non-empty list (the other translated keys being
absent) it stores the full list under `components` and the first element
under `component`; on an empty list the unguarded element-0 access raises
(after `components` has already been set), so the record must have a
non-empty component list for the translation to succeed. -/
theorem post_translation_component_guard (bug : Dict) :
    (dget bug "flags" = none → dget bug "blocks" = none → dget bug "keywords" = none →
     dget bug "alias" = none → dget bug "groups" = none →
     ∀ c rest, dget bug "component" = some (Val.vlist (c :: rest)) →
       post_translation bug =
         (dinsert (dinsert bug "components" (Val.vlist (c :: rest))) "component" c, none)) ∧
    (dget bug "flags" = none → dget bug "blocks" = none → dget bug "keywords" = none →
     dget bug "component" = some (Val.vlist []) →
       post_translation bug =
         (dinsert bug "components" (Val.vlist []),
          some "IndexError: list index out of range")) := by
  constructor
  · intro hf hb hk ha hg c rest hcomp
    have h1 : post_flags bug = (bug, none) := by simp [post_flags, hf]
    have h2 : post_blocks bug = (bug, none) := by simp [post_blocks, hb]
    have h3 : post_join_key "keywords" bug = (bug, none) := by simp [post_join_key, hk]
    have h4 : post_component bug =
        (dinsert (dinsert bug "components" (Val.vlist (c :: rest))) "component" c, none) := by
      simp [post_component, hcomp, pyIndex0]
    set s2 := dinsert (dinsert bug "components" (Val.vlist (c :: rest))) "component" c
      with hs2
    have ha2 : dget s2 "alias" = none := by
      rw [hs2, dget_dinsert_ne _ _ _ _ (by decide), dget_dinsert_ne _ _ _ _ (by decide)]
      exact ha
    have hg2 : dget s2 "groups" = none := by
      rw [hs2, dget_dinsert_ne _ _ _ _ (by decide), dget_dinsert_ne _ _ _ _ (by decide)]
      exact hg
    have h5 : post_join_key "alias" s2 = (s2, none) := by simp [post_join_key, ha2]
    have h6 : post_groups s2 = (s2, none) := by simp [post_groups, hg2]
    unfold post_translation
    rw [h1, stChain_ok, h2, stChain_ok, h3, stChain_ok, h4, stChain_ok, h5, stChain_ok, h6]
  · intro hf hb hk hcomp
    have h1 : post_flags bug = (bug, none) := by simp [post_flags, hf]
    have h2 : post_blocks bug = (bug, none) := by simp [post_blocks, hb]
    have h3 : post_join_key "keywords" bug = (bug, none) := by simp [post_join_key, hk]
    have h4 : post_component bug =
        (dinsert bug "components" (Val.vlist []),
         some "IndexError: list index out of range") := by
      simp [post_component, hcomp, pyIndex0]
    unfold post_translation
    rw [h1, stChain_ok, h2, stChain_ok, h3, stChain_ok, h4, stChain_err, stChain_err]

/-- C8 witness: component `["glibc", "kernel"]` succeeds with `components`
the full list and `component` its head; component `[]` raises IndexError
with `components` already set. -/
theorem post_translation_component_guard_witness :
    post_translation [("component", Val.vlist [Val.vstr "glibc", Val.vstr "kernel"])] =
      ([("component", Val.vstr "glibc"),
        ("components", Val.vlist [Val.vstr "glibc", Val.vstr "kernel"])], none) ∧
    post_translation [("component", Val.vlist [])] =
      ([("component", Val.vlist []), ("components", Val.vlist [])],
       some "IndexError: list index out of range") :=
  ⟨(post_translation_component_guard
      [("component", Val.vlist [Val.vstr "glibc", Val.vstr "kernel"])]).1
      rfl rfl rfl rfl rfl (Val.vstr "glibc") [Val.vstr "kernel"] rfl,
   (post_translation_component_guard [("component", Val.vlist [])]).2 rfl rfl rfl rfl⟩

/-- C5 witness: `bug_id = "1,2"` becomes `id = ["1", "2"]` with `bug_id`
removed (alias table empty). -/
theorem pre_translation_bug_id_witness :
    dget (pre_translation [] [("bug_id", Val.vstr "1,2")]).1 "id" =
      some (Val.vlist [Val.vstr "1", Val.vstr "2"]) ∧
    dcontains (pre_translation [] [("bug_id", Val.vstr "1,2")]).1 "bug_id" = false :=
  pre_translation_bug_id [] [("bug_id", Val.vstr "1,2")] "1,2" rfl

/-!
## Idempotence of pre_translation (C10)
-/

theorem dcontains_false (d : Dict) (k : String) :
    dcontains d k = false ↔ dget d k = none := by
  unfold dcontains
  cases dget d k <;> simp

theorem pt_bug_id_none (q : Dict) (h : dget q "bug_id" = none) :
    pt_bug_id q = (q, none) := by simp [pt_bug_id, h]

theorem pt_component_none (q : Dict) (h : dget q "component" = none) :
    pt_component q = (q, none) := by simp [pt_component, h]

theorem pt_component_list (q : Dict) (l : List Val)
    (h : dget q "component" = some (Val.vlist l)) :
    pt_component q = (q, none) := by simp [pt_component, h]

theorem pt_fields_noop (fa : List (String × String)) (q : Dict)
    (hif : dget q "include_fields" = none) (hcl : dget q "column_list" = none) :
    pt_fields fa q = (q, none) := by
  have h1 : dcontains q "include_fields" = false := by simp [dcontains, hif]
  have h2 : dcontains q "column_list" = false := by simp [dcontains, hcl]
  simp [pt_fields, h1, h2]

theorem pre_run (fa : List (String × String)) (q a b : Dict)
    (hb : pt_bug_id q = (a, none)) (hc : pt_component a = (b, none))
    (hf : pt_fields fa b = (b, none)) :
    pre_translation fa q = (b, none) := by
  unfold pre_translation
  rw [hb, stChain_ok, hc, stChain_ok, hf]

theorem pre_run_err1 (fa : List (String × String)) (q a : Dict) (e : String)
    (hb : pt_bug_id q = (a, some e)) :
    pre_translation fa q = (a, some e) := by
  unfold pre_translation
  rw [hb, stChain_err, stChain_err]

theorem pre_run_err2 (fa : List (String × String)) (q a b : Dict) (e : String)
    (hb : pt_bug_id q = (a, none)) (hc : pt_component a = (b, some e)) :
    pre_translation fa q = (b, some e) := by
  unfold pre_translation
  rw [hb, stChain_ok, hc, stChain_err]

/-- After a first pass whose bug_id stage produced state `a` (with bug_id
gone and the fields keys still absent), a second full pass is a no-op. -/
theorem pre_idem_stage2 (fa : List (String × String)) (q a : Dict)
    (hb : pt_bug_id q = (a, none))
    (habug : dget a "bug_id" = none)
    (haif : dget a "include_fields" = none)
    (hacl : dget a "column_list" = none) :
    pre_translation fa ((pre_translation fa q).1) = pre_translation fa q := by
  have hb2 : pt_bug_id a = (a, none) := pt_bug_id_none _ habug
  cases hcv : dget a "component" with
  | none =>
      have hc := pt_component_none a hcv
      have hf := pt_fields_noop fa a haif hacl
      have hres : pre_translation fa q = (a, none) := pre_run fa q a a hb hc hf
      rw [hres]
      exact pre_run fa a a a hb2 hc hf
  | some w =>
      cases w with
      | vstr s2 =>
          have hc : pt_component a =
              (dinsert a "component" (Val.vlist ((pySplitChar ',' s2).map Val.vstr)), none) := by
            simp [pt_component, hcv]
          set q2 := dinsert a "component" (Val.vlist ((pySplitChar ',' s2).map Val.vstr))
            with hq2
          have h2bug : dget q2 "bug_id" = none := by
            rw [hq2, dget_dinsert_ne _ _ _ _ (by decide)]; exact habug
          have h2if : dget q2 "include_fields" = none := by
            rw [hq2, dget_dinsert_ne _ _ _ _ (by decide)]; exact haif
          have h2cl : dget q2 "column_list" = none := by
            rw [hq2, dget_dinsert_ne _ _ _ _ (by decide)]; exact hacl
          have h2comp : dget q2 "component" =
              some (Val.vlist ((pySplitChar ',' s2).map Val.vstr)) := by
            rw [hq2]; exact dget_dinsert_self _ _ _
          have hf : pt_fields fa q2 = (q2, none) := pt_fields_noop fa q2 h2if h2cl
          have hres : pre_translation fa q = (q2, none) := pre_run fa q a q2 hb hc hf
          rw [hres]
          exact pre_run fa q2 q2 q2 (pt_bug_id_none _ h2bug)
            (pt_component_list _ _ h2comp) hf
      | vlist l2 =>
          have hc := pt_component_list a l2 hcv
          have hf := pt_fields_noop fa a haif hacl
          have hres : pre_translation fa q = (a, none) := pre_run fa q a a hb hc hf
          rw [hres]
          exact pre_run fa a a a hb2 hc hf
      | vnone =>
          have hc : pt_component a =
              (a, some "AttributeError: object has no attribute split") := by
            simp [pt_component, hcv]
          have hres := pre_run_err2 fa q a a _ hb hc
          rw [hres]
          exact pre_run_err2 fa a a a _ hb2 hc
      | vbool b2 =>
          have hc : pt_component a =
              (a, some "AttributeError: object has no attribute split") := by
            simp [pt_component, hcv]
          have hres := pre_run_err2 fa q a a _ hb hc
          rw [hres]
          exact pre_run_err2 fa a a a _ hb2 hc
      | vint n2 =>
          have hc : pt_component a =
              (a, some "AttributeError: object has no attribute split") := by
            simp [pt_component, hcv]
          have hres := pre_run_err2 fa q a a _ hb hc
          rw [hres]
          exact pre_run_err2 fa a a a _ hb2 hc
      | vdict d2 =>
          have hc : pt_component a =
              (a, some "AttributeError: object has no attribute split") := by
            simp [pt_component, hcv]
          have hres := pre_run_err2 fa q a a _ hb hc
          rw [hres]
          exact pre_run_err2 fa a a a _ hb2 hc

/-- C10 counterexample: with a chained alias table — one pair's canonical
name serving as an earlier pair's legacy name — `pre_translation` is not
idempotent on a query carrying `include_fields`: a first pass turns
`["a"]` into `["b"]`, which a second pass turns into `["c"]`.  The alias
table contents live outside this module, so idempotence over every query
mapping cannot hold for the translation mechanics alone. -/
theorem pre_translation_not_idempotent :
    pre_translation [("c", "b"), ("b", "a")]
        ((pre_translation [("c", "b"), ("b", "a")]
          [("include_fields", Val.vlist [Val.vstr "a"])]).1) ≠
      pre_translation [("c", "b"), ("b", "a")]
        [("include_fields", Val.vlist [Val.vstr "a"])] := by
  intro h
  have h1 : pre_translation [("c", "b"), ("b", "a")]
      [("include_fields", Val.vlist [Val.vstr "a"])] =
    ([("include_fields", Val.vlist [Val.vstr "b"])], none) := rfl
  have h2 : pre_translation [("c", "b"), ("b", "a")]
      ((pre_translation [("c", "b"), ("b", "a")]
        [("include_fields", Val.vlist [Val.vstr "a"])]).1) =
    ([("include_fields", Val.vlist [Val.vstr "c"])], none) := rfl
  rw [h2, h1] at h
  simp at h

/-- C10 (amended): on every query mapping without the `include_fields` and
`column_list` keys — in particular the alias table is never consulted —
`pre_translation` is idempotent as a state transformer: a second
application reproduces the first result exactly (state and error alike),
whatever the alias table and whatever the values of `bug_id` and
`component`. -/
theorem pre_translation_idempotent_no_fields (fa : List (String × String)) (q : Dict)
    (hif : dcontains q "include_fields" = false)
    (hcl : dcontains q "column_list" = false) :
    pre_translation fa ((pre_translation fa q).1) = pre_translation fa q := by
  have hif0 : dget q "include_fields" = none := (dcontains_false _ _).1 hif
  have hcl0 : dget q "column_list" = none := (dcontains_false _ _).1 hcl
  cases hbv : dget q "bug_id" with
  | none => exact pre_idem_stage2 fa q q (pt_bug_id_none _ hbv) hbv hif0 hcl0
  | some v =>
      cases v with
      | vstr s =>
          set q1 := derase (dinsert q "id" (Val.vlist ((pySplitChar ',' s).map Val.vstr)))
            "bug_id" with hq1
          have hb : pt_bug_id q = (q1, none) := by simp [pt_bug_id, hbv, hq1]
          have h1bug : dget q1 "bug_id" = none := by rw [hq1]; exact dget_derase_self _ _
          have h1if : dget q1 "include_fields" = none := by
            rw [hq1, dget_derase_ne _ _ _ (by decide), dget_dinsert_ne _ _ _ _ (by decide)]
            exact hif0
          have h1cl : dget q1 "column_list" = none := by
            rw [hq1, dget_derase_ne _ _ _ (by decide), dget_dinsert_ne _ _ _ _ (by decide)]
            exact hcl0
          exact pre_idem_stage2 fa q q1 hb h1bug h1if h1cl
      | vlist l =>
          set q1 := derase (dinsert q "id" (Val.vlist l)) "bug_id" with hq1
          have hb : pt_bug_id q = (q1, none) := by simp [pt_bug_id, hbv, hq1]
          have h1bug : dget q1 "bug_id" = none := by rw [hq1]; exact dget_derase_self _ _
          have h1if : dget q1 "include_fields" = none := by
            rw [hq1, dget_derase_ne _ _ _ (by decide), dget_dinsert_ne _ _ _ _ (by decide)]
            exact hif0
          have h1cl : dget q1 "column_list" = none := by
            rw [hq1, dget_derase_ne _ _ _ (by decide), dget_dinsert_ne _ _ _ _ (by decide)]
            exact hcl0
          exact pre_idem_stage2 fa q q1 hb h1bug h1if h1cl
      | vnone =>
          have hb : pt_bug_id q =
              (q, some "AttributeError: object has no attribute split") := by
            simp [pt_bug_id, hbv]
          have hres := pre_run_err1 fa q q _ hb
          rw [hres]
          exact hres
      | vbool b =>
          have hb : pt_bug_id q =
              (q, some "AttributeError: object has no attribute split") := by
            simp [pt_bug_id, hbv]
          have hres := pre_run_err1 fa q q _ hb
          rw [hres]
          exact hres
      | vint n =>
          have hb : pt_bug_id q =
              (q, some "AttributeError: object has no attribute split") := by
            simp [pt_bug_id, hbv]
          have hres := pre_run_err1 fa q q _ hb
          rw [hres]
          exact hres
      | vdict d =>
          have hb : pt_bug_id q =
              (q, some "AttributeError: object has no attribute split") := by
            simp [pt_bug_id, hbv]
          have hres := pre_run_err1 fa q q _ hb
          rw [hres]
          exact hres

/-- C10 witness: a query with a `bug_id` string and a status filter (no
include_fields / column_list) is left unchanged by a second pass. -/
theorem pre_translation_idempotent_no_fields_witness :
    pre_translation [("id", "bug_id")]
        ((pre_translation [("id", "bug_id")]
          [("bug_id", Val.vstr "1"), ("status", Val.vstr "NEW")]).1) =
      pre_translation [("id", "bug_id")]
        [("bug_id", Val.vstr "1"), ("status", Val.vstr "NEW")] :=
  pre_translation_idempotent_no_fields [("id", "bug_id")]
    [("bug_id", Val.vstr "1"), ("status", Val.vstr "NEW")] rfl rfl

/-!
## Claims about the query builder
-/

/-- C7: a `None` value under an email-role key or a boolean-chain key is
consumed without effect: the key is deleted from the keyword arguments,
nothing is emitted into the query (in particular the query format is not
switched to advanced), and the running counter is returned unchanged. -/
theorem none_value_inert (key kwkey : String) (bkey : Option String)
    (count bool_id : Nat) (kwargs query : Dict) :
    (dget kwargs key = some Val.vnone →
      add_email key count kwargs query = (derase kwargs key, query, count)) ∧
    (dget kwargs kwkey = some Val.vnone →
      add_boolean kwkey bkey bool_id kwargs query = .ok (derase kwargs kwkey, query, bool_id)) := by
  constructor
  · intro h; simp [add_email, h]
  · intro h; simp [add_boolean, h]

/-- C7 witness: `cc = None` and `fixed_in = None` are removed from the
keyword arguments with the query left empty and the counters unchanged. -/
theorem none_value_inert_witness :
    add_email "cc" 1 [("cc", Val.vnone)] [] = ([], [], 1) ∧
    add_boolean "fixed_in" (some "cf_fixed_in") 0 [("fixed_in", Val.vnone)] [] =
      .ok ([], [], 0) :=
  ⟨(none_value_inert "cc" "fixed_in" (some "cf_fixed_in") 1 0 [("cc", Val.vnone)] []).1 rfl,
   (none_value_inert "cc" "fixed_in" (some "cf_fixed_in") 0 0
      [("fixed_in", Val.vnone)] []).2 rfl⟩

/-- C1 counterexample: `bool_smart_split` splits only on spaces — operators
are recognised as standalone tokens only when they stand alone between
spaces — so the boolean-chain value "a|b" tokenizes as the single token
"a|b", not as the three tokens the claim states. -/
theorem bool_smart_split_nospace_counterexample :
    bool_smart_split "a|b" = ["a|b"] ∧
    ¬ (bool_smart_split "a|b" = ["a", "|", "b"]) := by
  exact ⟨rfl, by decide⟩

/-- C1 (amended to the spaced form the tokenizer actually accepts): the
boolean-chain value "a | b" under `alias` tokenizes as ["a", "|", "b"];
the "|" token raises the OR counter from 0 to 1 (visible in the chart
coordinates and in the final counters), and the resulting query holds
exactly the advanced format marker plus the field/value/type triples of
"a" (at or-index 0) and "b" (at or-index 1) — no residual entry for the
"|" token itself, whose transient writes the "b" triple overwrites. -/
theorem bool_or_token_chart :
    bool_smart_split "a | b" = ["a", "|", "b"] ∧
    add_boolean "alias" (some "alias") 0 [("alias", Val.vlist [Val.vstr "a | b"])] [] =
      .ok ([],
        [("query_format", Val.vstr "advanced"),
         ("field0-0-0", Val.vstr "alias"),
         ("value0-0-0", Val.vstr "a"),
         ("type0-0-0", Val.vstr "substring"),
         ("field0-0-1", Val.vstr "alias"),
         ("value0-0-1", Val.vstr "b"),
         ("type0-0-1", Val.vstr "substring")], 1) ∧
    (add_boolean_chart [] (some "alias") (Val.vlist [Val.vstr "a | b"]) 0
        [("query_format", Val.vstr "advanced")] "a | b").map
      (fun st => (st.2.1, st.2.2)) = .ok (0, 1) :=
  ⟨rfl, rfl, rfl⟩

end RHBz
